import Mathlib

/-!
Shallow embedding of the SKU reconciliation engine in
`backend/services/sku_mapper.py` (class `SKUMapperService`), together with
proofs settling the specification claims about it.

Conventions of the embedding:
* Python strings are Lean `String`s; all character-level operations are done
  on `String.data` (`List Char`) so that every definition is structurally
  recursive and kernel-computable.
* Python's regex character classes (`\w`, `\s`, `[A-Z]`, ...) are modelled on
  the ASCII alphabet the service works over; `str.upper()` is the per-character
  ASCII uppercasing, which coincides with `Char.toUpper` there.
* Python floats carrying confidence scores are modelled as `ℚ`; every arithmetic
  step of the source (`0.5 + 0.2 + ...`, `min(c, 1.0)`) is mirrored literally.
* The SQLAlchemy session is modelled as an in-memory `Db` (list of products,
  list of marketplace listings); the external `fuzzywuzzy` similarity scorer is
  an opaque function field `fuzzScore` of the `Db` (it is a third-party
  collaborator, not code of this repository).
-/

/-- ASCII whitespace set of Python's `str.strip()` / regex `\s`:
space, tab, newline, carriage return, vertical tab, form feed (character
classes are stated on code points, which determines the character). -/
def pyIsSpace (c : Char) : Bool :=
  decide (c.toNat = 32) || decide (c.toNat = 9) || decide (c.toNat = 10)
    || decide (c.toNat = 13) || decide (c.toNat = 11) || decide (c.toNat = 12)

/-- Quote characters stripped by `sku.strip('"\'')` in `_clean_sku`:
the double quote (34) and the single quote (39). -/
def isQuoteChar (c : Char) : Bool :=
  decide (c.toNat = 34) || decide (c.toNat = 39)

/-- Uppercase ASCII letter (regex class `[A-Z]`, code points 65-90). -/
def isUpperAZ (c : Char) : Bool :=
  decide (65 ≤ c.toNat) && decide (c.toNat ≤ 90)

/-- Lowercase ASCII letter (regex class `[a-z]`, code points 97-122). -/
def isLowerAZ (c : Char) : Bool :=
  decide (97 ≤ c.toNat) && decide (c.toNat ≤ 122)

/-- ASCII digit (regex class `[0-9]` / `\d`, code points 48-57). -/
def isDigit09 (c : Char) : Bool :=
  decide (48 ≤ c.toNat) && decide (c.toNat ≤ 57)

/-- ASCII fragment of Python's regex class `\w`: letters, digits and the
underscore (code point 95). -/
def isWordChar (c : Char) : Bool :=
  isUpperAZ c || isLowerAZ c || isDigit09 c || decide (c.toNat = 95)

/-- Characters kept by `re.sub(r'[^\w\-]', '', cleaned)` in `_clean_sku`:
word characters and the hyphen. -/
def keepChar (c : Char) : Bool :=
  isWordChar c || decide (c.toNat = 45)

/-- Model of Python `str.strip()` (no argument): drop whitespace from both
ends. -/
def pyStripWS (l : List Char) : List Char :=
  ((l.dropWhile pyIsSpace).reverse.dropWhile pyIsSpace).reverse

/-- Model of Python `str.strip('"\'')`: drop quote characters from both
ends. -/
def pyStripQuotes (l : List Char) : List Char :=
  ((l.dropWhile isQuoteChar).reverse.dropWhile isQuoteChar).reverse

/-- Model of `re.sub(r'\s+', '-', cleaned)`: each maximal run of whitespace
becomes a single hyphen.  The Boolean argument records whether the previous
character belonged to a whitespace run. -/
def subSpaceRunsAux : Bool → List Char → List Char
  | _, [] => []
  | prevSpace, c :: cs =>
    if pyIsSpace c then
      if prevSpace then subSpaceRunsAux true cs
      else '-' :: subSpaceRunsAux true cs
    else c :: subSpaceRunsAux false cs

/-- Replace every maximal whitespace run by one hyphen. -/
def subSpaceRuns (l : List Char) : List Char :=
  subSpaceRunsAux false l

/-- Embedding of `SKUMapperService._clean_sku`:

    if not sku: return ""
    cleaned = sku.strip().strip('"\'')
    cleaned = re.sub(r'\s+', '-', cleaned)
    cleaned = re.sub(r'[^\w\-]', '', cleaned)
    return cleaned.upper()
-/
def clean_sku (sku : String) : String :=
  if sku = "" then ""
  else ⟨((subSpaceRuns (pyStripQuotes (pyStripWS sku.data))).filter keepChar).map Char.toUpper⟩

/-- Regex `^(B[0-9A-Z]{9}|[A-Z0-9]{10})$` (the `amazon` pattern). -/
def matchesAmazon (s : String) : Bool :=
  (match s.data with
   | c :: rest => c = 'B' && decide (rest.length = 9) && rest.all (fun d => isDigit09 d || isUpperAZ d)
   | [] => false)
  || (decide (s.data.length = 10) && s.data.all (fun d => isUpperAZ d || isDigit09 d))

/-- Regex `^[0-9]{12}$` (the `ebay` pattern). -/
def matchesEbay (s : String) : Bool :=
  decide (s.data.length = 12) && s.data.all isDigit09

/-- Regex `^[a-zA-Z0-9\-_]{1,100}$` (the `shopify` pattern). -/
def matchesShopify (s : String) : Bool :=
  decide (1 ≤ s.data.length) && decide (s.data.length ≤ 100)
    && s.data.all (fun c => isLowerAZ c || isUpperAZ c || isDigit09 c || c = '-' || c = '_')

/-- Regex `^[A-Z0-9]{8,15}$` (the `walmart` pattern). -/
def matchesWalmart (s : String) : Bool :=
  decide (8 ≤ s.data.length) && decide (s.data.length ≤ 15)
    && s.data.all (fun c => isUpperAZ c || isDigit09 c)

/-- Regex `^[A-Z]{2,4}-\d{4,8}$` (the `standard` pattern), on a character
list.  Greedy matching with backtracking coincides with maximal-munch here
because `[A-Z]`, `-` and `\d` are disjoint classes. -/
def matchesStandardL (l : List Char) : Bool :=
  let letters := l.takeWhile isUpperAZ
  let rest := l.dropWhile isUpperAZ
  decide (2 ≤ letters.length) && decide (letters.length ≤ 4) &&
  (match rest with
   | c :: ds => c = '-' && decide (4 ≤ ds.length) && decide (ds.length ≤ 8) && ds.all isDigit09
   | [] => false)

/-- Split a character list at every comma, mirroring Python `str.split(',')`. -/
def splitOnComma : List Char → List (List Char)
  | [] => [[]]
  | c :: cs =>
    if c = ',' then [] :: splitOnComma cs
    else
      match splitOnComma cs with
      | [] => [[c]]
      | p :: ps => (c :: p) :: ps

/-- Regex `^([A-Z]{2,4}-\d{4,8})(,([A-Z]{2,4}-\d{4,8}))*$` (the `combo`
pattern): one or more `standard` tokens separated by commas.  Since a
`standard` token never contains a comma, the regex is equivalent to splitting
on commas and requiring every part to match `standard`. -/
def matchesCombo (s : String) : Bool :=
  (splitOnComma s.data).all matchesStandardL

/-- Membership in the `self.patterns` dict of `SKUMapperService.__init__`. -/
def hasPattern (marketplace : String) : Bool :=
  marketplace = "amazon" || marketplace = "ebay" || marketplace = "shopify"
    || marketplace = "walmart" || marketplace = "standard" || marketplace = "combo"

/-- Dispatch on the `self.patterns` dict: `self.patterns[marketplace].match(sku)`. -/
def matchPattern (marketplace : String) (s : String) : Bool :=
  match marketplace with
  | "amazon" => matchesAmazon s
  | "ebay" => matchesEbay s
  | "shopify" => matchesShopify s
  | "walmart" => matchesWalmart s
  | "standard" => matchesStandardL s.data
  | "combo" => matchesCombo s
  | _ => false

/-- Iteration over `self.patterns.values()` in dict insertion order, as done
by the fallback loop of `validate_sku`. -/
def anyPattern (s : String) : Bool :=
  matchesAmazon s || matchesEbay s || matchesShopify s || matchesWalmart s
    || matchesStandardL s.data || matchesCombo s

/-- Embedding of `SKUMapperService.validate_sku`:

    if not sku or not sku.strip(): return False
    sku = sku.strip().upper()
    if marketplace and marketplace in self.patterns:
        return bool(self.patterns[marketplace].match(sku))
    for pattern in self.patterns.values():
        if pattern.match(sku): return True
    return False

The patterns are all anchored `^...$`, and the input has been stripped, so
`re.match` is full-string matching here. -/
def validate_sku (sku : String) (marketplace : Option String) : Bool :=
  if sku = "" then false
  else
    let stripped := pyStripWS sku.data
    if stripped = [] then false
    else
      let s : String := ⟨stripped.map Char.toUpper⟩
      match marketplace with
      | some m => if m ≠ "" && hasPattern m then matchPattern m s else anyPattern s
      | none => anyPattern s

/-- Embedding of `SKUMapperService._process_amazon_sku`:
prefix `AMZ-` when the SKU starts with `B` and has length 10. -/
def process_amazon_sku (sku : String) : String :=
  if (match sku.data with | c :: _ => c = 'B' | [] => false) && decide (sku.data.length = 10)
  then "AMZ-" ++ sku else sku

/-- Embedding of `SKUMapperService._process_ebay_sku`:
when the SKU is exactly 12 digits (`re.match(r'^\d{12}$', sku)`), prefix
`EBY-` and keep only the last 8 characters (`sku[-8:]`). -/
def process_ebay_sku (sku : String) : String :=
  if decide (sku.data.length = 12) && sku.data.all isDigit09
  then "EBY-" ++ String.mk (sku.data.drop (sku.data.length - 8)) else sku

/-- Embedding of `SKUMapperService._process_shopify_sku`:
remove every character outside `[a-zA-Z0-9\-]` and prefix `SHO-`. -/
def process_shopify_sku (sku : String) : String :=
  "SHO-" ++ String.mk (sku.data.filter (fun c => isLowerAZ c || isUpperAZ c || isDigit09 c || c = '-'))

/-- Embedding of `SKUMapperService._process_walmart_sku`:
when the SKU matches `^[A-Z0-9]{8,15}$`, prefix `WMT-`. -/
def process_walmart_sku (sku : String) : String :=
  if decide (8 ≤ sku.data.length) && decide (sku.data.length ≤ 15)
      && sku.data.all (fun c => isUpperAZ c || isDigit09 c)
  then "WMT-" ++ sku else sku

/-- Membership in the `self.marketplace_rules` dict of
`SKUMapperService.__init__`. -/
def hasMarketplaceRule (marketplace : String) : Bool :=
  marketplace = "amazon" || marketplace = "ebay" || marketplace = "shopify"
    || marketplace = "walmart"

/-- Embedding of `SKUMapperService._apply_marketplace_rules`: dispatch on the
`marketplace_rules` dict, identity for unregistered marketplaces. -/
def apply_marketplace_rules (sku marketplace : String) : String :=
  match marketplace with
  | "amazon" => process_amazon_sku sku
  | "ebay" => process_ebay_sku sku
  | "shopify" => process_shopify_sku sku
  | "walmart" => process_walmart_sku sku
  | _ => sku

/-- Catalog product row (`database.models.Product`): `sku` is non-nullable,
`msku` is nullable. -/
structure Product where
  id : String
  sku : String
  msku : Option String
  name : String
deriving DecidableEq

/-- Marketplace listing row (`database.models.MarketplaceListing`), carrying
its related `product`. -/
structure MarketplaceListing where
  marketplace_sku : String
  platform : String
  product : Product
deriving DecidableEq

/-- In-memory model of the SQLAlchemy session used by the mapper, together
with the external `fuzzywuzzy` similarity scorer `fuzzScore` (an opaque
collaborator: `fuzzScore q c` stands for the library's 0-100 score of
`process.extractOne(q, ..., scorer=fuzz.ratio)` for choice `c`, including the
library's internal preprocessing). -/
structure Db where
  products : List Product
  listings : List MarketplaceListing
  fuzzScore : String → String → ℕ

/-- Model of `fuzzywuzzy.process.extractOne(query, choices, scorer=...)`:
the best-scoring choice with its score (first one on ties, as Python `max`),
`None` on an empty choice list. -/
def extractOne (score : String → String → ℕ) (query : String) (choices : List String) :
    Option (String × ℕ) :=
  match choices with
  | [] => none
  | c :: cs =>
    some (cs.foldl (fun best x => if score query x > best.2 then (x, score query x) else best)
      (c, score query c))

/-- Embedding of `SKUMapperService._fuzzy_match_product` (threshold keeps its
default value 80).  `[p.sku for p in products if p.sku]` keeps only truthy
(non-empty, non-null) fields; `next(p for p in products if p.sku == match[0])`
is the first product carrying the matched choice, which always exists because
the choice came from the product list. -/
def fuzzy_match_product (sku : String) (db : Db) : Option Product :=
  if db.products.isEmpty then none
  else
    let sku_list := db.products.filterMap
      (fun p => if p.sku = "" then none else some p.sku)
    let msku_list := db.products.filterMap
      (fun p => match p.msku with
        | some m => if m = "" then none else some m
        | none => none)
    let onMsku : Option Product :=
      match extractOne db.fuzzScore sku msku_list with
      | some pr =>
        if 80 ≤ pr.2 then db.products.find? (fun p => decide (p.msku = some pr.1)) else none
      | none => none
    match extractOne db.fuzzScore sku sku_list with
    | some pr =>
      if 80 ≤ pr.2 then db.products.find? (fun p => decide (p.sku = pr.1)) else onMsku
    | none => onMsku

/-- Embedding of `SKUMapperService._find_existing_product`: direct `sku`
match, then `msku` match, then marketplace listing match, then fuzzy match.
SQL `==` never matches a NULL `msku`, hence the `some`-equality. -/
def find_existing_product (mapped_sku marketplace : String) (db : Db) : Option Product :=
  match db.products.find? (fun p => decide (p.sku = mapped_sku)) with
  | some p => some p
  | none =>
    match db.products.find? (fun p => decide (p.msku = some mapped_sku)) with
    | some p => some p
    | none =>
      match db.listings.find?
          (fun l => decide (l.marketplace_sku = mapped_sku) && decide (l.platform = marketplace)) with
      | some l => some l.product
      | none => fuzzy_match_product mapped_sku db

/-- Uppercase hexadecimal digit for a value below 16 (as Python `format(·, 'X')`). -/
def hexDigit (n : ℕ) : Char :=
  if n < 10 then Char.ofNat (48 + n) else Char.ofNat (55 + n)

/-- Hexadecimal digits of `n` (most significant first, empty for 0), with an
explicit fuel argument so the recursion is structural; fuel `n` is always
sufficient since the value is divided by 16 at each step. -/
def hexCharsAux : ℕ → ℕ → List Char
  | 0, _ => []
  | fuel + 1, n => if n = 0 then [] else hexCharsAux fuel (n / 16) ++ [hexDigit (n % 16)]

/-- Uppercase hexadecimal rendering of a natural number, as Python
`format(n, 'X')`: no leading zeroes, and `0` renders as `"0"`. -/
def hexRepr (n : ℕ) : List Char :=
  if n = 0 then ['0'] else hexCharsAux n n

/-- Embedding of `SKUMapperService._simple_hash`:

    hash_value = 0
    for char in text:
        hash_value = ((hash_value << 5) - hash_value) + ord(char)
        hash_value = hash_value & 0xFFFFFFFF
    return format(abs(hash_value), 'X')[:6]

`(h << 5) - h + ord(c)` is non-negative for `h ≥ 0`, so `Nat` subtraction is
exact and `& 0xFFFFFFFF` is reduction modulo `2^32`; the masked value is
non-negative, so `abs` is the identity. -/
def simple_hash (text : String) : String :=
  let h := text.data.foldl (fun h c => (h * 32 - h + c.toNat) % 4294967296) 0
  String.mk ((hexRepr h).take 6)

/-- Embedding of `SKUMapperService._generate_msku`: reuse the matched
product's truthy `msku`, else its `sku`, else synthesize
`WMS-{marketplace.upper()[:3]}-{_simple_hash(mapped_sku)}`. -/
def generate_msku (mapped_sku marketplace : String) (existing_product : Option Product) : String :=
  match existing_product with
  | some p =>
    match p.msku with
    | some m => if m = "" then p.sku else m
    | none => p.sku
  | none =>
    let pre : String := String.mk ((marketplace.data.map Char.toUpper).take 3)
    "WMS-" ++ pre ++ "-" ++ simple_hash mapped_sku

/-- Embedding of `SKUMapperService._calculate_confidence`: additive score
from base `0.5`, the exact-match case overwriting the accumulator with `1.0`
before the remaining additions, and a final `min(confidence, 1.0)`. -/
def calculate_confidence (original_sku mapped_sku : String)
    (existing_product : Option Product) (marketplace : String) : ℚ :=
  let base : ℚ := 0.5
  let c1 := if validate_sku original_sku (some marketplace) then base + 0.2 else base
  let c2 := match existing_product with
    | some p =>
      let withMatch := c1 + 0.3
      if p.sku = mapped_sku then (1.0 : ℚ) else withMatch
    | none => c1
  let c3 := if hasMarketplaceRule marketplace then c2 + 0.1 else c2
  let c4 := if decide (8 ≤ original_sku.length) && original_sku.data.contains '-'
            then c3 + 0.1 else c3
  min c4 1

/-- Embedding of `SKUMapperService._determine_mapping_method`. -/
def determine_mapping_method (confidence : ℚ) (existing_product : Option Product) : String :=
  if existing_product.isSome && decide ((0.9 : ℚ) ≤ confidence) then "automatic"
  else if decide ((0.7 : ℚ) ≤ confidence) then "ai_suggested"
  else "manual"

/-- Embedding of `SKUMapperService._generate_mapping_notes`: tier sentence
joined with the match sentence by `"; "`. -/
def generate_mapping_notes (confidence : ℚ) (existing_product : Option Product) : String :=
  let tier := if (0.9 : ℚ) ≤ confidence then "High confidence automatic mapping"
    else if (0.7 : ℚ) ≤ confidence then "AI suggested mapping - review recommended"
    else "Low confidence mapping - manual review required"
  let matchNote := match existing_product with
    | some p => "Matched to existing product: " ++ p.name
    | none => "No existing product match found"
  tier ++ "; " ++ matchNote

/-- The `mapping_result` dict assembled by `SKUMapperService.map_sku`, as a
structure. -/
structure MappingResult where
  original_sku : String
  mapped_sku : String
  msku : String
  marketplace : String
  confidence : ℚ
  mapping_method : String
  product_id : Option String
  notes : String
deriving DecidableEq

/-- Embedding of `SKUMapperService.map_sku`: clean, transform, look up,
generate the MSKU, score, pick the method, assemble the result.  With the
in-memory catalog model no step of this pipeline raises, so the function is
total. -/
def map_sku (original_sku marketplace : String) (db : Db) : MappingResult :=
  let cleaned_sku := clean_sku original_sku
  let mapped_sku := apply_marketplace_rules cleaned_sku marketplace
  let existing_product := find_existing_product mapped_sku marketplace db
  let confidence := calculate_confidence original_sku mapped_sku existing_product marketplace
  { original_sku := original_sku
    mapped_sku := mapped_sku
    msku := generate_msku mapped_sku marketplace existing_product
    marketplace := marketplace
    confidence := confidence
    mapping_method := determine_mapping_method confidence existing_product
    product_id := existing_product.map (fun p => p.id)
    notes := generate_mapping_notes confidence existing_product }

/-- Python values stored in the row dicts handled by `batch_map_skus`:
strings, numbers and `None`. -/
inductive PyVal where
  | vStr : String → PyVal
  | vNum : ℚ → PyVal
  | vNone : PyVal
deriving DecidableEq

/-- A Python dict, modelled as an insertion-ordered association list with the
usual unique-key discipline. -/
abbrev PyDict := List (String × PyVal)

/-- Dict read `d[k]` / `d.get(k)`: value at the first occurrence of `k`. -/
def dlookup (d : PyDict) (k : String) : Option PyVal :=
  (d.find? (fun kv => decide (kv.1 = k))).map (fun kv => kv.2)

/-- Dict write `d[k] = v`: overwrite the (unique) existing occurrence of the
key in place, append a fresh key at the end (Python dicts preserve insertion
order). -/
def dinsert : PyDict → String → PyVal → PyDict
  | [], k, v => [(k, v)]
  | kv :: rest, k, v => if kv.1 = k then (k, v) :: rest else kv :: dinsert rest k v

/-- Model of Python `d.update(s)`: write every pair of `s` into `d`, in
order. -/
def dupdate (d s : PyDict) : PyDict :=
  s.foldl (fun acc kv => dinsert acc kv.1 kv.2) d

/-- The `mapping_result` dict of `map_sku`, in its construction order. -/
def resultDict (r : MappingResult) : PyDict :=
  [("original_sku", PyVal.vStr r.original_sku),
   ("mapped_sku", PyVal.vStr r.mapped_sku),
   ("msku", PyVal.vStr r.msku),
   ("marketplace", PyVal.vStr r.marketplace),
   ("confidence", PyVal.vNum r.confidence),
   ("mapping_method", PyVal.vStr r.mapping_method),
   ("product_id", match r.product_id with
     | some i => PyVal.vStr i
     | none => PyVal.vNone),
   ("notes", PyVal.vStr r.notes)]

/-- The degraded record appended by the `except` branch of `batch_map_skus`:

    {'original_sku': sku_data.get('sku'), 'error': str(e),
     'confidence': 0.0, 'mapping_method': 'failed'}
-/
def failedRecord (sku_data : PyDict) (err : String) : PyDict :=
  [("original_sku", (dlookup sku_data "sku").getD PyVal.vNone),
   ("error", PyVal.vStr err),
   ("confidence", PyVal.vNum 0),
   ("mapping_method", PyVal.vStr "failed")]

/-- The body of the `batch_map_skus` loop for one item.  A string-valued
`sku` maps via `map_sku` (which never raises against the in-memory catalog)
and the input item is merged over the result (`result.update(sku_data)`).
A missing `sku` key raises `KeyError` at `sku_data['sku']`; a `None` value
raises `TypeError` at `len(original_sku)` inside `_calculate_confidence`; a
numeric value raises inside `_clean_sku` (`AttributeError` at `.strip()`, or
`TypeError` at `len()` for falsy `0`).  Each of these is caught by the
`except` branch, producing the degraded record. -/
def processItem (marketplace : String) (db : Db) (sku_data : PyDict) : PyDict :=
  match dlookup sku_data "sku" with
  | some (PyVal.vStr s) => dupdate (resultDict (map_sku s marketplace db)) sku_data
  | some PyVal.vNone =>
    failedRecord sku_data "object of type 'NoneType' has no len()"
  | some (PyVal.vNum q) =>
    failedRecord sku_data
      (if q = 0 then "object of type 'float' has no len()"
       else "'float' object has no attribute 'strip'")
  | none => failedRecord sku_data "'sku'"

/-- Embedding of `SKUMapperService.batch_map_skus`: the accumulator loop

    results = []
    for sku_data in sku_list:
        try: ... results.append(result)
        except ...: results.append({...failed...})
    return results
-/
def batch_map_skus (sku_list : List PyDict) (marketplace : String) (db : Db) : List PyDict :=
  sku_list.foldl (fun results sku_data => results ++ [processItem marketplace db sku_data]) []

/-- One element of the `mappings` list consumed by `validate_mapping_batch`,
modelled by the three fields the function reads (`.get('original_sku')`,
`.get('marketplace')`, `.get('confidence', 0)`), each `none` when the key is
absent or `None`. -/
structure MappingRecord where
  original_sku : Option String
  marketplace : Option String
  confidence : Option ℚ
deriving DecidableEq

/-- The guard of the `validate_mapping_batch` loop:
`self.validate_sku(mapping.get('original_sku'), mapping.get('marketplace'))`;
`validate_sku(None, ...)` is `False` via its falsy-input check. -/
def recordPasses (m : MappingRecord) : Bool :=
  match m.original_sku with
  | some s => validate_sku s m.marketplace
  | none => false

/-- The warning string appended for a low-confidence valid mapping. -/
def lowConfWarning (m : MappingRecord) : String :=
  "Low confidence mapping for SKU: " ++ (m.original_sku.getD "")

/-- Whether a valid mapping draws a warning:
`mapping.get('confidence', 0) < 0.6`. -/
def lowConfidence (m : MappingRecord) : Bool :=
  decide (m.confidence.getD 0 < (0.6 : ℚ))

/-- The report returned by `validate_mapping_batch`. -/
structure BatchValidation where
  valid : List MappingRecord
  invalid : List MappingRecord
  warnings : List String
  total_processed : ℕ
  success_rate : ℚ
deriving DecidableEq

/-- One step of the `validate_mapping_batch` loop over the accumulated
`(valid, invalid, warnings)` lists. -/
def validateStep (acc : List MappingRecord × List MappingRecord × List String)
    (m : MappingRecord) : List MappingRecord × List MappingRecord × List String :=
  if recordPasses m then
    (acc.1 ++ [m], acc.2.1,
     if lowConfidence m then acc.2.2 ++ [lowConfWarning m] else acc.2.2)
  else
    (acc.1, acc.2.1 ++ [m], acc.2.2)

/-- Embedding of `SKUMapperService.validate_mapping_batch`, including the
guarded `success_rate = len(valid)/len(mappings) if mappings else 0`. -/
def validate_mapping_batch (mappings : List MappingRecord) : BatchValidation :=
  let acc := mappings.foldl validateStep ([], [], [])
  { valid := acc.1
    invalid := acc.2.1
    warnings := acc.2.2
    total_processed := mappings.length
    success_rate := if mappings.isEmpty then 0 else (acc.1.length : ℚ) / mappings.length }

/-- A catalog with no products and no listings (the similarity scorer is
irrelevant there and set to the constantly-0 function). -/
def emptyDb : Db :=
  { products := [], listings := [], fuzzScore := fun _ _ => 0 }

/-- A one-product catalog used by concrete witnesses. -/
def widgetDb : Db :=
  { products := [{ id := "p1", sku := "ABC-12345", msku := none, name := "Widget" }],
    listings := [], fuzzScore := fun _ _ => 0 }

/-! ### Auxiliary lemmas about characters and lists -/

/-- Conversion through `Char.ofNat` preserves small code points. -/
theorem charToNat_ofNat_lt {n : ℕ} (h : n < 55296) : (Char.ofNat n).toNat = n := by
  rw [Char.ofNat, dif_pos (Or.inl h)]
  rfl

/-- Characters are determined by their code points. -/
theorem char_eq_of_toNat_eq {c d : Char} (h : c.toNat = d.toNat) : c = d :=
  Char.ext (UInt32.toNat.inj h)

/-- Code point of `Char.toUpper`: lowercase ASCII letters move down by 32,
everything else is fixed. -/
theorem toUpper_toNat (c : Char) :
    (Char.toUpper c).toNat = if 97 ≤ c.toNat ∧ c.toNat ≤ 122 then c.toNat - 32 else c.toNat := by
  rw [Char.toUpper]
  split_ifs with h1
  · exact charToNat_ofNat_lt (by omega)
  · rfl

/-- `Char.toUpper` fixes characters outside the lowercase ASCII range. -/
theorem toUpper_eq_self_of {c : Char} (h : ¬(97 ≤ c.toNat ∧ c.toNat ≤ 122)) :
    Char.toUpper c = c := by
  rw [Char.toUpper, if_neg h]

/-- ASCII uppercasing is idempotent. -/
theorem toUpper_toUpper (c : Char) : c.toUpper.toUpper = c.toUpper := by
  apply toUpper_eq_self_of
  rw [toUpper_toNat]
  split_ifs <;> omega

/-- Uppercasing preserves the `[^\w\-]`-surviving character class. -/
theorem keepChar_toUpper {c : Char} (h : keepChar c = true) :
    keepChar (Char.toUpper c) = true := by
  simp only [keepChar, isWordChar, isUpperAZ, isLowerAZ, isDigit09, Bool.or_eq_true,
    Bool.and_eq_true, decide_eq_true_eq, toUpper_toNat] at h ⊢
  split_ifs <;> omega

/-- Characters surviving `_clean_sku` are not whitespace. -/
theorem keepChar_not_space {c : Char} (h : keepChar c = true) : pyIsSpace c = false := by
  simp only [keepChar, isWordChar, isUpperAZ, isLowerAZ, isDigit09, pyIsSpace, Bool.or_eq_true,
    Bool.and_eq_true, decide_eq_true_eq, Bool.or_eq_false_iff, decide_eq_false_iff_not] at h ⊢
  omega

/-- Characters surviving `_clean_sku` are not quotes. -/
theorem keepChar_not_quote {c : Char} (h : keepChar c = true) : isQuoteChar c = false := by
  simp only [keepChar, isWordChar, isUpperAZ, isLowerAZ, isDigit09, isQuoteChar, Bool.or_eq_true,
    Bool.and_eq_true, decide_eq_true_eq, Bool.or_eq_false_iff, decide_eq_false_iff_not] at h ⊢
  omega

/-- Dropping from the front is the identity when no element satisfies the
predicate. -/
theorem dropWhile_eq_self_of {p : Char → Bool} {l : List Char}
    (h : ∀ a ∈ l, p a = false) : l.dropWhile p = l := by
  cases l with
  | nil => rfl
  | cons c cs => simp [List.dropWhile, h c (by simp)]

/-- Two-sided stripping is the identity when no element satisfies the
predicate. -/
theorem strip2_eq_self {p : Char → Bool} {l : List Char}
    (h : ∀ a ∈ l, p a = false) : ((l.dropWhile p).reverse.dropWhile p).reverse = l := by
  rw [dropWhile_eq_self_of h, dropWhile_eq_self_of, List.reverse_reverse]
  intro a ha
  exact h a (List.mem_reverse.mp ha)

/-- Whitespace-run collapsing is the identity on whitespace-free lists. -/
theorem subSpaceRunsAux_eq_self {l : List Char}
    (h : ∀ a ∈ l, pyIsSpace a = false) : ∀ b, subSpaceRunsAux b l = l := by
  induction l with
  | nil => intro b; rfl
  | cons c cs ih =>
    intro b
    have hc : pyIsSpace c = false := h c (by simp)
    simp only [subSpaceRunsAux, hc, Bool.false_eq_true, if_false]
    rw [ih (fun a ha => h a (by simp [ha]))]

/-- Mapping a function that fixes every element is the identity. -/
theorem map_eq_self_of {f : Char → Char} {l : List Char}
    (h : ∀ a ∈ l, f a = a) : l.map f = l := by
  induction l with
  | nil => rfl
  | cons c cs ih =>
    simp only [List.map_cons, h c (by simp)]
    rw [ih (fun a ha => h a (by simp [ha]))]

/-- Rebuilding a string from its character list is the identity. -/
theorem string_mk_data (s : String) : String.mk s.data = s := rfl

/-- Every character of a `_clean_sku` output survives the `[^\w\-]` filter
and is fixed by uppercasing. -/
theorem clean_sku_chars (s : String) :
    ∀ c ∈ (clean_sku s).data, keepChar c = true ∧ Char.toUpper c = c := by
  intro c hc
  unfold clean_sku at hc
  split_ifs at hc with hs
  · simp at hc
  · simp only [List.mem_map] at hc
    obtain ⟨d, hd, rfl⟩ := hc
    have hkeep : keepChar d = true := List.of_mem_filter hd
    refine ⟨keepChar_toUpper hkeep, toUpper_toUpper d⟩

/-- Whitespace stripping is the identity on whitespace-free lists. -/
theorem pyStripWS_eq_self {l : List Char} (h : ∀ a ∈ l, pyIsSpace a = false) :
    pyStripWS l = l :=
  strip2_eq_self h

/-- Quote stripping is the identity on quote-free lists. -/
theorem pyStripQuotes_eq_self {l : List Char} (h : ∀ a ∈ l, isQuoteChar a = false) :
    pyStripQuotes l = l :=
  strip2_eq_self h

/-- C9: the normalizer is idempotent: for every string `x`,
`_clean_sku(_clean_sku(x)) == _clean_sku(x)`. -/
theorem C9_normalize_idempotent (s : String) : clean_sku (clean_sku s) = clean_sku s := by
  by_cases h : clean_sku s = ""
  · rw [h]
    rfl
  · have hch := clean_sku_chars s
    have h1 : ∀ a ∈ (clean_sku s).data, pyIsSpace a = false :=
      fun a ha => keepChar_not_space (hch a ha).1
    have h2 : ∀ a ∈ (clean_sku s).data, isQuoteChar a = false :=
      fun a ha => keepChar_not_quote (hch a ha).1
    nth_rewrite 1 [clean_sku]
    rw [if_neg h, pyStripWS_eq_self h1, pyStripQuotes_eq_self h2]
    rw [show subSpaceRuns (clean_sku s).data = (clean_sku s).data from
      subSpaceRunsAux_eq_self h1 false]
    rw [List.filter_eq_self.mpr (fun a ha => (hch a ha).1)]
    rw [map_eq_self_of (fun a ha => (hch a ha).2)]

/-- C6 (amended): every character of a normalizer output is an uppercase
ASCII letter, a digit, an underscore (code point 95) or a hyphen (code
point 45) — in particular the output is upper-cased, but underscores survive
alongside alphanumerics and hyphens, because Python's `\w` class keeps
them. -/
theorem C6_clean_alphabet (s : String) :
    ∀ c ∈ (clean_sku s).data,
      (isUpperAZ c || isDigit09 c || decide (c.toNat = 95) || decide (c.toNat = 45)) = true := by
  intro c hc
  obtain ⟨hk, hu⟩ := clean_sku_chars s c hc
  have ht := toUpper_toNat c
  rw [hu] at ht
  simp only [keepChar, isWordChar, isUpperAZ, isLowerAZ, isDigit09, Bool.or_eq_true,
    Bool.and_eq_true, decide_eq_true_eq] at hk ⊢
  split_ifs at ht <;> omega

/-- Witness for C6's amended theorem at the concrete input `"a_b"`. -/
theorem C6_clean_alphabet_witness :
    (isUpperAZ 'A' || isDigit09 'A' || decide (Char.toNat 'A' = 95)
      || decide (Char.toNat 'A' = 45)) = true :=
  C6_clean_alphabet "a_b" 'A' (by decide)

/-- Counterexample to C6 as stated: the underscore survives `_clean_sku`
(`"a_b"` normalizes to `"A_B"`) yet is neither alphanumeric nor a hyphen. -/
theorem C6_underscore_counterexample :
    clean_sku "a_b" = "A_B" ∧ '_' ∈ (clean_sku "a_b").data
      ∧ Char.isAlphanum '_' = false ∧ '_' ≠ '-' := by
  decide

/-- C1 (amended): `map_sku` never returns `method = 'failed'` — for every
input, the empty-normalized ones included, it proceeds through
transform/lookup/scoring and returns one of the scorer's three methods. -/
theorem C1_map_never_fails (raw marketplace : String) (db : Db) :
    (map_sku raw marketplace db).mapping_method ≠ "failed" := by
  simp only [map_sku, determine_mapping_method]
  split_ifs <;> decide

/-- Witness for C1's amended theorem at the empty input. -/
theorem C1_map_never_fails_witness : (map_sku "" "ebay" emptyDb).mapping_method ≠ "failed" :=
  C1_map_never_fails "" "ebay" emptyDb

/-- Counterexample to C1 as stated: the raw SKU `""` normalizes to the empty
string, yet a single `map_sku` call does not return an immediate
`failed`/`0.0` result — it proceeds to transform/lookup/score and returns
`method = 'manual'` with confidence `0.6` (base `0.5` plus the `ebay`
marketplace-rule bonus `0.1`). -/
theorem C1_empty_input_counterexample :
    clean_sku "" = "" ∧ (map_sku "" "ebay" emptyDb).mapping_method = "manual"
      ∧ (map_sku "" "ebay" emptyDb).confidence = 3/5
      ∧ (map_sku "" "ebay" emptyDb).product_id = none := by
  with_unfolding_all decide

/-- An exact `sku == mapped_sku` match forces the confidence to exactly 1:
the assignment `confidence = 1.0` is followed only by non-negative additions
and the final `min(confidence, 1.0)`. -/
theorem calc_conf_exact {orig mapped mpl : String} {p : Product} (h : p.sku = mapped) :
    calculate_confidence orig mapped (some p) mpl = 1 := by
  simp only [calculate_confidence, h]
  split_ifs <;> norm_num [min_def]

/-- A found product plus confidence at least 0.9 selects `automatic`. -/
theorem determine_automatic {p : Product} {c : ℚ} (h : (0.9 : ℚ) ≤ c) :
    determine_mapping_method c (some p) = "automatic" := by
  unfold determine_mapping_method
  rw [if_pos]
  simp [h]

/-- C2: when the catalog match's `sku` field equals the transformed SKU
verbatim, the returned confidence is exactly 1.0 and the method is
`automatic`, regardless of the other scoring signals. -/
theorem C2_exact_match_confidence (raw marketplace : String) (db : Db) (p : Product)
    (hfind : find_existing_product (apply_marketplace_rules (clean_sku raw) marketplace)
        marketplace db = some p)
    (hsku : p.sku = apply_marketplace_rules (clean_sku raw) marketplace) :
    (map_sku raw marketplace db).confidence = 1
      ∧ (map_sku raw marketplace db).mapping_method = "automatic" := by
  simp only [map_sku, hfind]
  rw [calc_conf_exact hsku]
  exact ⟨rfl, determine_automatic (by norm_num)⟩

/-- Witness for C2 on a one-product catalog with a verbatim `sku` match. -/
theorem C2_exact_match_confidence_witness :
    (map_sku "ABC-12345" "other" widgetDb).confidence = 1
      ∧ (map_sku "ABC-12345" "other" widgetDb).mapping_method = "automatic" :=
  C2_exact_match_confidence "ABC-12345" "other" widgetDb
    { id := "p1", sku := "ABC-12345", msku := none, name := "Widget" }
    (by decide) (by decide)

/-- Case analysis of `_determine_mapping_method`: `automatic` forces a found
match and confidence at least 0.9; `manual` forces confidence below 0.7. -/
theorem determine_cases (c : ℚ) (e : Option Product) :
    (determine_mapping_method c e = "automatic" → (0.9 : ℚ) ≤ c ∧ e.isSome = true)
      ∧ (determine_mapping_method c e = "manual" → c < 0.7) := by
  unfold determine_mapping_method
  split_ifs with h1 h2
  · refine ⟨fun _ => ?_, fun hc => absurd hc (by decide)⟩
    simp only [Bool.and_eq_true, decide_eq_true_eq] at h1
    exact ⟨h1.2, h1.1⟩
  · exact ⟨fun hc => absurd hc (by decide), fun hc => absurd hc (by decide)⟩
  · refine ⟨fun hc => absurd hc (by decide), fun _ => ?_⟩
    rw [decide_eq_true_iff] at h2
    exact lt_of_not_le h2

/-- C3: `method = automatic` implies `confidence >= 0.9` and a found catalog
match (non-null `product_id`), and `method = manual` implies
`confidence < 0.7`. -/
theorem C3_method_invariants (raw marketplace : String) (db : Db) :
    ((map_sku raw marketplace db).mapping_method = "automatic" →
        (0.9 : ℚ) ≤ (map_sku raw marketplace db).confidence
          ∧ (map_sku raw marketplace db).product_id.isSome = true)
      ∧ ((map_sku raw marketplace db).mapping_method = "manual" →
        (map_sku raw marketplace db).confidence < 0.7) := by
  simp only [map_sku]
  have h := determine_cases
    (calculate_confidence raw (apply_marketplace_rules (clean_sku raw) marketplace)
      (find_existing_product (apply_marketplace_rules (clean_sku raw) marketplace) marketplace db)
      marketplace)
    (find_existing_product (apply_marketplace_rules (clean_sku raw) marketplace) marketplace db)
  refine ⟨fun ha => ?_, h.2⟩
  obtain ⟨hc, hs⟩ := h.1 ha
  refine ⟨hc, ?_⟩
  rw [Option.isSome_map']
  exact hs

/-- Witness for C3: an `automatic` result on the one-product catalog and a
`manual` result on the empty catalog. -/
theorem C3_method_invariants_witness :
    ((0.9 : ℚ) ≤ (map_sku "ABC-12345" "other" widgetDb).confidence
        ∧ (map_sku "ABC-12345" "other" widgetDb).product_id.isSome = true)
      ∧ (map_sku "" "ebay" emptyDb).confidence < 0.7 :=
  ⟨(C3_method_invariants "ABC-12345" "other" widgetDb).1 (by with_unfolding_all decide),
   (C3_method_invariants "" "ebay" emptyDb).2 (by with_unfolding_all decide)⟩

/-- Uppercase hex digits are ASCII digits or letters `A`-`F`. -/
theorem hexDigit_class {n : ℕ} (h : n < 16) :
    (isDigit09 (hexDigit n) || (decide (65 ≤ (hexDigit n).toNat)
      && decide ((hexDigit n).toNat ≤ 70))) = true := by
  unfold hexDigit
  split_ifs with h1
  · have e := charToNat_ofNat_lt (n := 48 + n) (by omega)
    simp only [isDigit09, e, Bool.or_eq_true, Bool.and_eq_true, decide_eq_true_eq]
    omega
  · have e := charToNat_ofNat_lt (n := 55 + n) (by omega)
    simp only [isDigit09, e, Bool.or_eq_true, Bool.and_eq_true, decide_eq_true_eq]
    omega

/-- Every character produced by the hexadecimal rendering is an uppercase
hex digit. -/
theorem hexCharsAux_class (fuel : ℕ) :
    ∀ n, ∀ c ∈ hexCharsAux fuel n,
      (isDigit09 c || (decide (65 ≤ c.toNat) && decide (c.toNat ≤ 70))) = true := by
  induction fuel with
  | zero =>
    intro n c hc
    simp [hexCharsAux] at hc
  | succ f ih =>
    intro n c hc
    unfold hexCharsAux at hc
    split_ifs at hc with h
    · simp at hc
    · rw [List.mem_append] at hc
      rcases hc with hc | hc
      · exact ih (n / 16) c hc
      · simp only [List.mem_singleton] at hc
        subst hc
        exact hexDigit_class (Nat.mod_lt _ (by omega))

/-- The hexadecimal rendering of a nonzero value with enough fuel is
nonempty. -/
theorem hexCharsAux_ne_nil {fuel n : ℕ} (hf : 1 ≤ fuel) (hn : n ≠ 0) :
    hexCharsAux fuel n ≠ [] := by
  cases fuel with
  | zero => omega
  | succ f =>
    unfold hexCharsAux
    rw [if_neg hn]
    simp

/-- `format(n, 'X')` is never the empty string. -/
theorem hexRepr_ne_nil (n : ℕ) : hexRepr n ≠ [] := by
  unfold hexRepr
  split_ifs with h
  · simp
  · exact hexCharsAux_ne_nil (by omega) h

/-- The `_simple_hash` output has between 1 and 6 characters. -/
theorem simple_hash_length (t : String) :
    1 ≤ (simple_hash t).length ∧ (simple_hash t).length ≤ 6 := by
  unfold simple_hash
  show 1 ≤ (List.take 6 (hexRepr _)).length ∧ (List.take 6 (hexRepr _)).length ≤ 6
  rw [List.length_take]
  have h1 := hexRepr_ne_nil (t.data.foldl (fun h c => (h * 32 - h + c.toNat) % 4294967296) 0)
  have h2 : 1 ≤ (hexRepr (t.data.foldl (fun h c => (h * 32 - h + c.toNat) % 4294967296) 0)).length := by
    cases hh : hexRepr (t.data.foldl (fun h c => (h * 32 - h + c.toNat) % 4294967296) 0) with
    | nil => exact absurd hh h1
    | cons a l => simp
  omega

/-- Every `_simple_hash` output character is an uppercase hex digit. -/
theorem simple_hash_class (t : String) :
    ∀ c ∈ (simple_hash t).data,
      (isDigit09 c || (decide (65 ≤ c.toNat) && decide (c.toNat ≤ 70))) = true := by
  intro c hc
  have hc2 : c ∈ hexRepr (t.data.foldl (fun h c => (h * 32 - h + c.toNat) % 4294967296) 0) :=
    List.take_subset 6 _ hc
  unfold hexRepr at hc2
  split_ifs at hc2 with h
  · simp only [List.mem_singleton] at hc2
    subst hc2
    decide
  · exact hexCharsAux_class _ _ c hc2

/-- C4 (amended): with no catalog match the synthesized canonical id is
`WMS-{first 3 characters of marketplace, uppercased}-{hex}` where `hex` is
the uppercase hexadecimal rendering of the 32-bit rolling hash of the
transformed SKU, written without left padding and truncated to at most 6
digits (so it has between 1 and 6 uppercase hex digits, not always exactly
6); the synthesis is a pure function of `(transformed_sku, marketplace)`, so
repeated calls yield the identical id. -/
theorem C4_msku_shape (mapped_sku marketplace : String) :
    ∃ hx : String,
      generate_msku mapped_sku marketplace none
          = "WMS-" ++ String.mk ((marketplace.data.map Char.toUpper).take 3) ++ "-" ++ hx
        ∧ hx = simple_hash mapped_sku
        ∧ 1 ≤ hx.length ∧ hx.length ≤ 6
        ∧ ∀ c ∈ hx.data,
            (isDigit09 c || (decide (65 ≤ c.toNat) && decide (c.toNat ≤ 70))) = true := by
  refine ⟨simple_hash mapped_sku, rfl, rfl, (simple_hash_length mapped_sku).1,
    (simple_hash_length mapped_sku).2, simple_hash_class mapped_sku⟩

/-- Witness for C4's amended theorem at `("A", "amazon")`. -/
theorem C4_msku_shape_witness :
    ∃ hx : String,
      generate_msku "A" "amazon" none
          = "WMS-" ++ String.mk ((("amazon" : String).data.map Char.toUpper).take 3) ++ "-" ++ hx
        ∧ hx = simple_hash "A"
        ∧ 1 ≤ hx.length ∧ hx.length ≤ 6
        ∧ ∀ c ∈ hx.data,
            (isDigit09 c || (decide (65 ≤ c.toNat) && decide (c.toNat ≤ 70))) = true :=
  C4_msku_shape "A" "amazon"

/-- Counterexample to C4 as stated: the hash part is not left-padded to 6 hex
digits — for the transformed SKU `"A"` the rolling hash is `0x41`, rendered
as the 2-digit `"41"`, so the id `WMS-AMA-41` has length 10, not the length
14 the claimed `WMS-XXX-DDDDDD` shape requires. -/
theorem C4_hash_width_counterexample :
    generate_msku "A" "amazon" none = "WMS-AMA-41"
      ∧ (simple_hash "A").length = 2
      ∧ (generate_msku "A" "amazon" none).length ≠ 14 := by
  decide

/-- Dict lookup on a cons cell. -/
theorem dlookup_cons (kv : String × PyVal) (d : PyDict) (k : String) :
    dlookup (kv :: d) k = if kv.1 = k then some kv.2 else dlookup d k := by
  rw [dlookup, List.find?_cons]
  by_cases h : kv.1 = k <;> simp [h, dlookup]

/-- Writing a key makes it readable. -/
theorem dlookup_dinsert_self (d : PyDict) (k : String) (v : PyVal) :
    dlookup (dinsert d k v) k = some v := by
  induction d with
  | nil => simp [dinsert, dlookup_cons]
  | cons kv rest ih =>
    by_cases h : kv.1 = k
    · simp [dinsert, h, dlookup_cons]
    · rw [dinsert, if_neg h, dlookup_cons, if_neg h]
      exact ih

/-- Writing one key leaves the others unchanged. -/
theorem dlookup_dinsert_ne (d : PyDict) {k' k : String} (v : PyVal) (h : k' ≠ k) :
    dlookup (dinsert d k' v) k = dlookup d k := by
  induction d with
  | nil => simp [dinsert, dlookup_cons, h]
  | cons kv rest ih =>
    by_cases hkv : kv.1 = k'
    · rw [dinsert, if_pos hkv, dlookup_cons, if_neg h, dlookup_cons, if_neg]
      rw [hkv]
      exact h
    · rw [dinsert, if_neg hkv, dlookup_cons, dlookup_cons]
      by_cases h2 : kv.1 = k
      · rw [if_pos h2, if_pos h2]
      · rw [if_neg h2, if_neg h2]
        exact ih

/-- Unfolding `dupdate` over a cons cell. -/
theorem dupdate_cons (d : PyDict) (kv : String × PyVal) (s : PyDict) :
    dupdate d (kv :: s) = dupdate (dinsert d kv.1 kv.2) s :=
  rfl

/-- `d.update(s)` leaves keys outside `s` unchanged. -/
theorem dlookup_dupdate_not_mem {s : PyDict} {k : String}
    (h : k ∉ s.map Prod.fst) : ∀ d, dlookup (dupdate d s) k = dlookup d k := by
  induction s with
  | nil => intro d; rfl
  | cons kv rest ih =>
    intro d
    simp only [List.map_cons, List.mem_cons, not_or] at h
    rw [dupdate_cons, ih h.2, dlookup_dinsert_ne d kv.2 (fun he => h.1 he.symm)]

/-- After `d.update(s)`, every key of `s` reads its `s` value (for the
unique-key dicts Python produces). -/
theorem dlookup_dupdate_mem :
    ∀ (s : PyDict), (s.map Prod.fst).Nodup →
      ∀ (d : PyDict) (k : String) (v : PyVal), dlookup s k = some v →
        dlookup (dupdate d s) k = some v := by
  intro s
  induction s with
  | nil =>
    intro _ d k v hv
    simp [dlookup] at hv
  | cons kv rest ih =>
    intro hnd d k v hv
    have hnd' : (rest.map Prod.fst).Nodup := (List.nodup_cons.mp (by simpa using hnd)).2
    have hhead : kv.1 ∉ rest.map Prod.fst := (List.nodup_cons.mp (by simpa using hnd)).1
    rw [dlookup_cons] at hv
    rw [dupdate_cons]
    by_cases h : kv.1 = k
    · rw [if_pos h] at hv
      subst h
      rw [dlookup_dupdate_not_mem hhead, dlookup_dinsert_self]
      exact hv
    · rw [if_neg h] at hv
      exact ih hnd' (dinsert d kv.1 kv.2) k v hv

/-- C10: for a batch item that maps without raising, every key/value pair of
the input dict is copied verbatim into the output record after the mapping
result is computed, overwriting any computed field of the same name. -/
theorem C10_update_overwrites (item : PyDict) (marketplace : String) (db : Db) (s : String)
    (hsku : dlookup item "sku" = some (PyVal.vStr s))
    (hnd : (item.map Prod.fst).Nodup) :
    ∀ (k : String) (v : PyVal), dlookup item k = some v →
      dlookup (processItem marketplace db item) k = some v := by
  intro k v hv
  unfold processItem
  rw [hsku]
  exact dlookup_dupdate_mem item hnd _ k v hv

/-- Witness for C10: an input item carrying `confidence` and `notes` keys has
them copied verbatim over the computed fields. -/
theorem C10_update_overwrites_witness :
    dlookup (processItem "ebay" emptyDb
        [("sku", PyVal.vStr "ABC-12345"), ("confidence", PyVal.vNum 2),
         ("notes", PyVal.vStr "keep me")]) "confidence" = some (PyVal.vNum 2) :=
  C10_update_overwrites
    [("sku", PyVal.vStr "ABC-12345"), ("confidence", PyVal.vNum 2),
     ("notes", PyVal.vStr "keep me")]
    "ebay" emptyDb "ABC-12345" (by decide) (by decide) "confidence" (PyVal.vNum 2)
    (by with_unfolding_all decide)

/-- The append-accumulator loop of `batch_map_skus` is a `map`. -/
theorem batch_foldl (marketplace : String) (db : Db) :
    ∀ (items : List PyDict) (acc : List PyDict),
      items.foldl (fun results sku_data => results ++ [processItem marketplace db sku_data]) acc
        = acc ++ items.map (processItem marketplace db) := by
  intro items
  induction items with
  | nil => intro acc; simp
  | cons it rest ih =>
    intro acc
    rw [List.foldl_cons, ih]
    simp

/-- `batch_map_skus` maps the per-item body over the batch, in order. -/
theorem batch_eq_map (items : List PyDict) (marketplace : String) (db : Db) :
    batch_map_skus items marketplace db = items.map (processItem marketplace db) := by
  unfold batch_map_skus
  rw [batch_foldl]
  rfl

/-- C5 (amended): batch mapping returns exactly one record per input item,
in input order, each depending on its own item only; an item whose SKU entry
is missing, `None` or non-string raises inside the loop and yields a degraded
record (`method = 'failed'`, `confidence = 0.0`, an error message) without
affecting the other items.  (An empty-string SKU does not raise: it maps
normally — see the counterexample.) -/
theorem C5_batch_isolation (items : List PyDict) (marketplace : String) (db : Db) :
    batch_map_skus items marketplace db = items.map (processItem marketplace db)
      ∧ (batch_map_skus items marketplace db).length = items.length
      ∧ ∀ item ∈ items,
          (dlookup item "sku" = none ∨ dlookup item "sku" = some PyVal.vNone
            ∨ ∃ q, dlookup item "sku" = some (PyVal.vNum q)) →
          ∃ e, processItem marketplace db item = failedRecord item e
            ∧ dlookup (processItem marketplace db item) "mapping_method"
                = some (PyVal.vStr "failed")
            ∧ dlookup (processItem marketplace db item) "confidence" = some (PyVal.vNum 0)
            ∧ dlookup (processItem marketplace db item) "error" = some (PyVal.vStr e) := by
  refine ⟨batch_eq_map items marketplace db, ?_, ?_⟩
  · rw [batch_eq_map items marketplace db]
    exact List.length_map items _
  · intro item _ hbad
    unfold processItem
    rcases hbad with hb | hb | ⟨q, hb⟩ <;> rw [hb]
    · exact ⟨_, rfl, rfl, rfl, rfl⟩
    · exact ⟨_, rfl, rfl, rfl, rfl⟩
    · exact ⟨_, rfl, rfl, rfl, rfl⟩

/-- Witness for C5: a one-item batch whose item has a `None` SKU yields the
degraded failed record. -/
theorem C5_batch_isolation_witness :
    ∃ e, processItem "ebay" emptyDb [("sku", PyVal.vNone)]
          = failedRecord [("sku", PyVal.vNone)] e
        ∧ dlookup (processItem "ebay" emptyDb [("sku", PyVal.vNone)]) "mapping_method"
            = some (PyVal.vStr "failed")
        ∧ dlookup (processItem "ebay" emptyDb [("sku", PyVal.vNone)]) "confidence"
            = some (PyVal.vNum 0)
        ∧ dlookup (processItem "ebay" emptyDb [("sku", PyVal.vNone)]) "error"
            = some (PyVal.vStr e) :=
  (C5_batch_isolation [[("sku", PyVal.vNone)]] "ebay" emptyDb).2.2
    [("sku", PyVal.vNone)] (by simp) (Or.inr (Or.inl (by decide)))

/-- Counterexample to C5 as stated: an empty-string SKU is not a failure —
the batch still returns one record for it, but that record is a normally
scored `manual` mapping, not a `failed` one. -/
theorem C5_empty_sku_counterexample :
    (batch_map_skus [[("sku", PyVal.vStr "")]] "ebay" emptyDb).length = 1
      ∧ dlookup ((batch_map_skus [[("sku", PyVal.vStr "")]] "ebay" emptyDb).headD [])
          "mapping_method" = some (PyVal.vStr "manual")
      ∧ dlookup ((batch_map_skus [[("sku", PyVal.vStr "")]] "ebay" emptyDb).headD [])
          "mapping_method" ≠ some (PyVal.vStr "failed") := by
  with_unfolding_all decide

/-- The additive scorer stays within `[0, 1]`: the accumulator starts at 0.5,
only grows, and is finally clamped by `min(·, 1.0)`. -/
theorem calculate_confidence_bounds (orig mapped : String) (e : Option Product) (mpl : String) :
    0 ≤ calculate_confidence orig mapped e mpl ∧ calculate_confidence orig mapped e mpl ≤ 1 := by
  rcases e with _ | p <;> simp only [calculate_confidence] <;> constructor
  · refine le_min ?_ (by norm_num)
    split_ifs <;> norm_num
  · exact min_le_right _ _
  · refine le_min ?_ (by norm_num)
    split_ifs <;> norm_num
  · exact min_le_right _ _

/-- The method selector only ever returns one of the three scored methods. -/
theorem determine_mem (c : ℚ) (e : Option Product) :
    determine_mapping_method c e
      ∈ (["automatic", "ai_suggested", "manual", "failed"] : List String) := by
  unfold determine_mapping_method
  split_ifs <;> simp

/-- Confidence bounds carried to a full `map_sku` result. -/
theorem map_sku_conf_bounds (raw marketplace : String) (db : Db) :
    0 ≤ (map_sku raw marketplace db).confidence
      ∧ (map_sku raw marketplace db).confidence ≤ 1 := by
  simp only [map_sku]
  exact calculate_confidence_bounds raw _ _ marketplace

/-- Method membership carried to a full `map_sku` result. -/
theorem map_sku_method_mem (raw marketplace : String) (db : Db) :
    (map_sku raw marketplace db).mapping_method
      ∈ (["automatic", "ai_suggested", "manual", "failed"] : List String) := by
  simp only [map_sku]
  exact determine_mem _ _

/-- The computed `confidence` entry of the result dict. -/
theorem resultDict_confidence (r : MappingResult) :
    dlookup (resultDict r) "confidence" = some (PyVal.vNum r.confidence) :=
  rfl

/-- The computed `mapping_method` entry of the result dict. -/
theorem resultDict_method (r : MappingResult) :
    dlookup (resultDict r) "mapping_method" = some (PyVal.vStr r.mapping_method) :=
  rfl

/-- C7 (amended): every `map_sku` result has `confidence ∈ [0,1]` and a
method among `automatic`, `ai_suggested`, `manual`, `failed`; and every batch
record keeps these invariants provided the input item does not itself carry a
`confidence` or `mapping_method` key — `result.update(sku_data)` copies such
keys verbatim over the computed fields (see the counterexample). -/
theorem C7_confidence_method_range :
    (∀ (raw marketplace : String) (db : Db),
        0 ≤ (map_sku raw marketplace db).confidence
          ∧ (map_sku raw marketplace db).confidence ≤ 1
          ∧ (map_sku raw marketplace db).mapping_method
              ∈ (["automatic", "ai_suggested", "manual", "failed"] : List String))
      ∧ (∀ (items : List PyDict) (marketplace : String) (db : Db) (r : PyDict),
          r ∈ batch_map_skus items marketplace db →
          (∀ item ∈ items, "confidence" ∉ item.map Prod.fst
            ∧ "mapping_method" ∉ item.map Prod.fst) →
          ∃ q s, dlookup r "confidence" = some (PyVal.vNum q) ∧ 0 ≤ q ∧ q ≤ 1
            ∧ dlookup r "mapping_method" = some (PyVal.vStr s)
            ∧ s ∈ (["automatic", "ai_suggested", "manual", "failed"] : List String)) := by
  constructor
  · intro raw marketplace db
    exact ⟨(map_sku_conf_bounds raw marketplace db).1,
      (map_sku_conf_bounds raw marketplace db).2, map_sku_method_mem raw marketplace db⟩
  · intro items marketplace db r hr hov
    rw [batch_eq_map] at hr
    obtain ⟨item, hitem, rfl⟩ := List.mem_map.mp hr
    obtain ⟨hc, hm⟩ := hov item hitem
    unfold processItem
    cases hsku : dlookup item "sku" with
    | none => exact ⟨0, "failed", rfl, le_refl 0, by norm_num, rfl, by simp⟩
    | some v =>
      cases v with
      | vStr s =>
        refine ⟨(map_sku s marketplace db).confidence, (map_sku s marketplace db).mapping_method,
          ?_, (map_sku_conf_bounds s marketplace db).1, (map_sku_conf_bounds s marketplace db).2,
          ?_, map_sku_method_mem s marketplace db⟩
        · rw [dlookup_dupdate_not_mem hc]
          exact resultDict_confidence _
        · rw [dlookup_dupdate_not_mem hm]
          exact resultDict_method _
      | vNum q => exact ⟨0, "failed", rfl, le_refl 0, by norm_num, rfl, by simp⟩
      | vNone => exact ⟨0, "failed", rfl, le_refl 0, by norm_num, rfl, by simp⟩

/-- Witness for C7 at a concrete single-item batch without override keys. -/
theorem C7_confidence_method_range_witness :
    ∃ q s,
      dlookup (processItem "ebay" emptyDb [("sku", PyVal.vStr "X")]) "confidence"
          = some (PyVal.vNum q)
        ∧ 0 ≤ q ∧ q ≤ 1
        ∧ dlookup (processItem "ebay" emptyDb [("sku", PyVal.vStr "X")]) "mapping_method"
            = some (PyVal.vStr s)
        ∧ s ∈ (["automatic", "ai_suggested", "manual", "failed"] : List String) :=
  C7_confidence_method_range.2 [[("sku", PyVal.vStr "X")]] "ebay" emptyDb
    (processItem "ebay" emptyDb [("sku", PyVal.vStr "X")])
    (by rw [batch_eq_map]; simp)
    (by intro item hitem; rw [List.mem_singleton] at hitem; subst hitem; exact ⟨by simp, by simp⟩)

/-- Counterexample to C7 as stated: a batch item carrying its own
`confidence` key has that value copied over the computed one, so the returned
record's confidence can lie outside `[0, 1]`. -/
theorem C7_override_counterexample :
    dlookup ((batch_map_skus [[("sku", PyVal.vStr "ABC-12345"), ("confidence", PyVal.vNum 2)]]
          "ebay" emptyDb).headD []) "confidence" = some (PyVal.vNum 2)
      ∧ ¬((2 : ℚ) ≤ 1) := by
  with_unfolding_all decide

/-- The validator loop accumulates exactly the pass/fail filters and one
warning per low-confidence valid record. -/
theorem validate_foldl :
    ∀ (mappings : List MappingRecord)
      (acc : List MappingRecord × List MappingRecord × List String),
      mappings.foldl validateStep acc
        = (acc.1 ++ mappings.filter recordPasses,
           acc.2.1 ++ mappings.filter (fun m => !recordPasses m),
           acc.2.2 ++ (mappings.filter
              (fun m => recordPasses m && lowConfidence m)).map lowConfWarning) := by
  intro mappings
  induction mappings with
  | nil => intro acc; simp
  | cons m rest ih =>
    intro acc
    rw [List.foldl_cons, ih]
    unfold validateStep
    by_cases hp : recordPasses m
    · by_cases hl : lowConfidence m
      · simp [hp, hl, List.filter_cons]
      · simp [hp, hl, List.filter_cons]
    · simp [hp, List.filter_cons]

/-- C8: `validate_mapping_batch` splits the batch into the format-valid and
format-invalid records, reports `success_rate = count(valid)/total` with
`0` on an empty batch, and emits one warning per valid record with
confidence below 0.6 while keeping it in the valid set. -/
theorem C8_validate_batch_report (mappings : List MappingRecord) :
    (validate_mapping_batch mappings).valid = mappings.filter recordPasses
      ∧ (validate_mapping_batch mappings).invalid
          = mappings.filter (fun m => !recordPasses m)
      ∧ (validate_mapping_batch mappings).warnings
          = (mappings.filter (fun m => recordPasses m && lowConfidence m)).map lowConfWarning
      ∧ (validate_mapping_batch mappings).total_processed = mappings.length
      ∧ (mappings = [] → (validate_mapping_batch mappings).success_rate = 0)
      ∧ (mappings ≠ [] → (validate_mapping_batch mappings).success_rate
          = ((mappings.filter recordPasses).length : ℚ) / (mappings.length : ℚ))
      ∧ ∀ m ∈ mappings, recordPasses m = true → lowConfidence m = true →
          m ∈ (validate_mapping_batch mappings).valid
            ∧ lowConfWarning m ∈ (validate_mapping_batch mappings).warnings := by
  have hf := validate_foldl mappings ([], [], [])
  simp only [validate_mapping_batch, hf, List.nil_append]
  refine ⟨trivial, trivial, trivial, trivial, ?_, ?_, ?_⟩
  · intro h
    subst h
    rfl
  · intro h
    rw [if_neg]
    simp only [List.isEmpty_iff]
    exact h
  · intro m hm hp hl
    constructor
    · exact List.mem_filter.mpr ⟨hm, hp⟩
    · exact List.mem_map.mpr ⟨m, List.mem_filter.mpr ⟨hm, by simp [hp, hl]⟩, rfl⟩

/-- Witness for C8 on a two-record batch (one valid low-confidence record,
one invalid record) and on the empty batch. -/
theorem C8_validate_batch_report_witness :
    (validate_mapping_batch
          [⟨some "AB-1234", some "standard", some (1/2)⟩, ⟨none, none, none⟩]).success_rate
        = (([⟨some "AB-1234", some "standard", some (1/2)⟩,
            (⟨none, none, none⟩ : MappingRecord)].filter recordPasses).length : ℚ)
          / (([⟨some "AB-1234", some "standard", some (1/2)⟩,
            (⟨none, none, none⟩ : MappingRecord)] : List MappingRecord).length : ℚ)
      ∧ (⟨some "AB-1234", some "standard", some (1/2)⟩ : MappingRecord)
          ∈ (validate_mapping_batch
            [⟨some "AB-1234", some "standard", some (1/2)⟩, ⟨none, none, none⟩]).valid
      ∧ lowConfWarning ⟨some "AB-1234", some "standard", some (1/2)⟩
          ∈ (validate_mapping_batch
            [⟨some "AB-1234", some "standard", some (1/2)⟩, ⟨none, none, none⟩]).warnings
      ∧ (validate_mapping_batch ([] : List MappingRecord)).success_rate = 0 :=
  ⟨(C8_validate_batch_report
      [⟨some "AB-1234", some "standard", some (1/2)⟩, ⟨none, none, none⟩]).2.2.2.2.2.1
      (by simp),
   ((C8_validate_batch_report
      [⟨some "AB-1234", some "standard", some (1/2)⟩, ⟨none, none, none⟩]).2.2.2.2.2.2
      ⟨some "AB-1234", some "standard", some (1/2)⟩ (by simp)
      (by decide) (by with_unfolding_all decide)).1,
   ((C8_validate_batch_report
      [⟨some "AB-1234", some "standard", some (1/2)⟩, ⟨none, none, none⟩]).2.2.2.2.2.2
      ⟨some "AB-1234", some "standard", some (1/2)⟩ (by simp)
      (by decide) (by with_unfolding_all decide)).2,
   (C8_validate_batch_report ([] : List MappingRecord)).2.2.2.2.1 rfl⟩
